import Mathlib

/-!
# Verification of the trading-system configuration and ingestion modules

Shallow embedding of `src/trading_systemconfig.py` and (where the source is
truncated) a spec-modelled embedding of `src/trading_systemdata_ingestion.py`,
with theorems settling the behavioural claims about configuration loading,
validation, engine construction and ingestion.

Python floats are modelled as rationals (`ℚ`); all comparisons appearing in
the code are order comparisons on small decimal constants, which the rational
model reflects exactly. Python exceptions are modelled with `Except`.
-/

set_option autoImplicit false

namespace TradingSystem

/-- The environment, restricted to the three variables `load_environment_config`
reads. `none` models an unset variable; `some s` a variable set to string `s`.
(Python's `os.getenv` returns `None` when the variable is absent.) -/
structure Env where
  PAPER_TRADING : Option String := none
  MAX_POSITION_SIZE : Option String := none
  MODEL_RETRAIN_THRESHOLD : Option String := none

/-- Model of Python's `str.lower()` on one character (ASCII range — the only
range exercised by the flag comparison against `"true"`). -/
def pyCharLower (c : Char) : Char :=
  if 'A' ≤ c ∧ c ≤ 'Z' then Char.ofNat (c.toNat + 32) else c

/-- Model of Python's `str.lower()`. -/
def pyLower (s : String) : String :=
  String.mk (s.data.map pyCharLower)

/-- Python truthiness of `os.getenv(name)` as used in the guards
`if os.getenv("..."):` — an absent variable and the empty string are both
falsy, any nonempty string is truthy. -/
def getenvTruthy (v : Option String) : Option String :=
  match v with
  | none => none
  | some s => if s.isEmpty then none else some s

/-- Value of a digit run, most significant first (helper for `parseFloat`). -/
def digitsVal (cs : List Char) : Nat :=
  cs.foldl (fun a c => 10 * a + (c.toNat - ('0').toNat)) 0

/-- Structural part of `parseFloat`: splits a decimal string into
(negative?, integer part value, fractional part value, fractional digit
count), or `none` when the string is not a plain decimal numeral. Kept over
`Bool`/`Nat` so that concrete instances evaluate by kernel reduction. -/
def parseFloatParts (s : String) : Option (Bool × Nat × Nat × Nat) :=
  let cs := s.toList
  let signed : Bool × List Char :=
    match cs with
    | '-' :: r => (true, r)
    | '+' :: r => (false, r)
    | r => (false, r)
  let intPart := signed.2.takeWhile Char.isDigit
  let rest := signed.2.dropWhile Char.isDigit
  match rest with
  | [] =>
    if intPart.isEmpty then none
    else some (signed.1, digitsVal intPart, 0, 0)
  | '.' :: fr =>
    let fracPart := fr.takeWhile Char.isDigit
    let rest2 := fr.dropWhile Char.isDigit
    if rest2.isEmpty && !(intPart.isEmpty && fracPart.isEmpty) then
      some (signed.1, digitsVal intPart, digitsVal fracPart, fracPart.length)
    else none
  | _ => none

/-- The rational value of a sign/integer/fraction split. -/
def partsToRat (p : Bool × Nat × Nat × Nat) : ℚ :=
  (if p.1 then -1 else 1) * ((p.2.1 : ℚ) + (p.2.2.1 : ℚ) / 10 ^ p.2.2.2)

/-- Model of Python's built-in `float(s)` on plain decimal strings: optional
sign, then digits with at most one decimal point and at least one digit.
Returns `none` where `float` raises `ValueError`. -/
def parseFloat (s : String) : Option ℚ :=
  (parseFloatParts s).map partsToRat

/-- The `TradingConfig` dataclass of `src/trading_systemconfig.py`, with the
declared defaults (decimal float literals rendered as exact rationals). -/
structure TradingConfig where
  data_sources : List (String × String) :=
    [("crypto", "ccxt"), ("stocks", "yfinance"), ("forex", "yfinance")]
  technical_indicators : List String :=
    ["sma_20", "sma_50", "ema_12", "ema_26",
     "rsi_14", "macd", "bollinger_upper", "bollinger_lower",
     "atr_14", "obv"]
  pattern_recognition_window : Int := 60
  lstm_units : Int := 128
  dropout_rate : ℚ := 3/10
  learning_rate : ℚ := 1/1000
  rl_episodes : Int := 1000
  rl_gamma : ℚ := 99/100
  rl_epsilon : ℚ := 1/10
  rl_memory_size : Int := 10000
  max_position_size : ℚ := 1/10
  stop_loss_pct : ℚ := 1/50
  take_profit_pct : ℚ := 1/20
  paper_trading : Bool := true
  trade_slippage : ℚ := 1/1000
  adaptation_frequency_minutes : Int := 15
  model_retrain_threshold : ℚ := 17/20
  deriving DecidableEq

/-- Embedding of `validate_config` from `src/trading_systemconfig.py`: the five `assert`s are
evaluated in order inside a `try`; the first failing one is caught, its
message logged (`logging.error`), and `False` returned. The returned pair is
(boolean result, logged assertion message if any). -/
def validate_config (config : TradingConfig) : Bool × Option String :=
  if ¬(config.max_position_size > 0 ∧ config.max_position_size ≤ 1) then
    (false, some "Invalid position size")
  else if ¬(config.stop_loss_pct > 0) then
    (false, some "Stop loss must be positive")
  else if ¬(config.take_profit_pct > config.stop_loss_pct) then
    (false, some "Take profit must exceed stop loss")
  else if ¬(config.pattern_recognition_window ≥ 30) then
    (false, some "Window too small for meaningful patterns")
  else if ¬(config.rl_episodes ≥ 100) then
    (false, some "Insufficient RL episodes")
  else
    (true, none)

/-- The Python exceptions `load_environment_config` can let escape: only
`ValueError` from `float()` on an unparsable string. -/
inductive PyError where
  | valueError : String → PyError
  deriving DecidableEq

/-- The `PAPER_TRADING` step of `load_environment_config`:
`config.paper_trading = os.getenv("PAPER_TRADING").lower() == "true"` when the
variable is truthy. This step cannot raise. -/
def setPaperTrading (env : Env) (config : TradingConfig) : TradingConfig :=
  match getenvTruthy env.PAPER_TRADING with
  | some s => { config with paper_trading := pyLower s == "true" }
  | none => config

/-- One float-override step of `load_environment_config`:
`config.<field> = float(os.getenv(name))` when the variable is truthy;
`float` raises `ValueError` on an unparsable string. -/
def setFloatField (v : Option String) (upd : TradingConfig → ℚ → TradingConfig)
    (config : TradingConfig) : Except PyError TradingConfig :=
  match getenvTruthy v with
  | some s =>
    match parseFloat s with
    | some q => Except.ok (upd config q)
    | none => Except.error (PyError.valueError s)
  | none => Except.ok config

/-- Embedding of `load_environment_config` from `src/trading_systemconfig.py`: builds the
default `TradingConfig`, then overrides `paper_trading`,
`max_position_size` and `model_retrain_threshold` in that order from the
environment when the corresponding variable is truthy; a `float()` parse
failure propagates as a `ValueError`. -/
def load_environment_config (env : Env) : Except PyError TradingConfig :=
  (setFloatField env.MAX_POSITION_SIZE
      (fun c q => { c with max_position_size := q })
      (setPaperTrading env {})).bind
    (setFloatField env.MODEL_RETRAIN_THRESHOLD
      (fun c q => { c with model_retrain_threshold := q }))

example : parseFloatParts "0.5" = some (false, 0, 5, 1) := rfl
example : parseFloat "0.5" = some (1/2) := by
  rw [parseFloat, show parseFloatParts "0.5" = some (false, 0, 5, 1) from rfl]
  norm_num [partsToRat]
example : parseFloat "2.0" = some 2 := by
  rw [parseFloat, show parseFloatParts "2.0" = some (false, 2, 0, 1) from rfl]
  norm_num [partsToRat]
example : parseFloat "abc" = none := rfl
example : parseFloat "" = none := rfl
example : parseFloat "-1.25" = some (-5/4) := by
  rw [parseFloat, show parseFloatParts "-1.25" = some (true, 1, 25, 2) from rfl]
  norm_num [partsToRat]
example : (validate_config {}).1 = true := by norm_num [validate_config]
example : load_environment_config {} = Except.ok {} := rfl

/-! ## Ingestion engine

`src/trading_systemdata_ingestion.py` is truncated inside
`DataIngestionEngine._initialize_exchanges` (the file ends mid-expression in
the first `ccxt.binance(...)` call), so the bodies of the exception handler,
the remaining source initialisations, and `ingest` are not in the source.
Only the `MarketData` dataclass and the `__init__` field layout are visible.
The engine behaviour below is therefore modelled from the spec (§4.2, §7, §8)
where marked. -/

/-- The `MarketData` dataclass of `src/trading_systemdata_ingestion.py`
(timestamps modelled as integers). -/
structure MarketData where
  symbol : String
  timestamp : Int
  «open» : ℚ
  high : ℚ
  low : ℚ
  close : ℚ
  volume : ℚ
  asset_class : String
  source : String
  deriving DecidableEq

/-- Modelled from the spec: one raw price payload fetched from an upstream
source, in the crypto-exchange shape of the §8 example
(`{symbol, o, h, l, c, v, ts}`); the normalisation code is missing from the
truncated source. -/
structure RawPayload where
  symbol : String
  o : ℚ
  h : ℚ
  l : ℚ
  c : ℚ
  v : ℚ
  ts : Int
  deriving DecidableEq

/-- Modelled from the spec: an `ExchangeConnection` (§3) — a named, stateful
handle to one upstream source; `fetch` either yields a raw payload for a
symbol or fails (malformed payload / source error). The connection carries
the asset class of the instruments it serves. -/
structure Connection where
  asset_class : String
  fetch : String → Except String RawPayload

/-- Modelled from the spec: the optional persistence handle (§4.2) — a
write-through target whose writes may fail. -/
structure PersistenceHandle where
  write : MarketData → Except String Unit

/-- Modelled from the spec: `ingest` failures (§7) — `SourceUnavailableError`
when the named source has no live connection, `DataValidationError` when the
fetched payload is rejected. -/
inductive IngestError where
  | sourceUnavailable : String → IngestError
  | dataValidation : String → IngestError
  deriving DecidableEq

/-- Modelled from the spec: the recoverable warning surfaced when the
write-through to persistence fails (§7, `PersistenceWriteError` — warning
only). -/
inductive IngestWarning where
  | persistenceWrite : String → IngestWarning
  deriving DecidableEq

/-- The `DataIngestionEngine` field layout of
`src/trading_systemdata_ingestion.py` (`__init__`, lines 37–42): config,
optional persistence client, a map of live exchange connections, and a
per-symbol buffer. `failed_sources` records the sources marked unavailable
during initialisation (modelled from the spec's partial-failure semantics,
the code for which is truncated). -/
structure DataIngestionEngine where
  config : TradingConfig
  firestore_client : Option PersistenceHandle
  ccxt_exchanges : List (String × Connection)
  failed_sources : List String
  data_buffer : List (String × List MarketData)

/-- Modelled from the spec: the loop of `_initialize_exchanges` over the
configured sources — each connection construction is attempted inside its own
try/except; a failure is logged and the source marked unavailable, the
remaining sources still initialise (§4.2 partial-failure semantics; the
source file is truncated inside this function's first try block). Returns
(live connections, failed sources). -/
def initializeExchanges (connect : String → Except String Connection) :
    List String → List (String × Connection) × List String
  | [] => ([], [])
  | name :: rest =>
    let acc := initializeExchanges connect rest
    match connect name with
    | Except.ok c => ((name, c) :: acc.1, acc.2)
    | Except.error _ => (acc.1, name :: acc.2)

/-- Modelled from the spec: `DataIngestionEngine.__init__` — stores config and
persistence handle, starts with an empty buffer, and runs
`_initialize_exchanges` over the configured sources. Construction is total:
per-source failures are absorbed by `initializeExchanges`, never propagated. -/
def mkEngine (config : TradingConfig) (sources : List String)
    (connect : String → Except String Connection)
    (firestore_client : Option PersistenceHandle) : DataIngestionEngine :=
  let inited := initializeExchanges connect sources
  { config := config
    firestore_client := firestore_client
    ccxt_exchanges := inited.1
    failed_sources := inited.2
    data_buffer := [] }

/-- Modelled from the spec: normalisation of a raw crypto-shape payload into
the unified `MarketData` record (§8 example). -/
def normalize (p : RawPayload) (asset_class source : String) : MarketData :=
  { symbol := p.symbol
    timestamp := p.ts
    «open» := p.o
    high := p.h
    low := p.l
    close := p.c
    volume := p.v
    asset_class := asset_class
    source := source }

/-- Append a record to the per-symbol buffer map: extend the symbol's entry
if present, otherwise add a fresh singleton entry. -/
def appendToBuffer : List (String × List MarketData) → String → MarketData →
    List (String × List MarketData)
  | [], symbol, r => [(symbol, [r])]
  | (k, rs) :: rest, symbol, r =>
    if k = symbol then (k, rs ++ [r]) :: rest
    else (k, rs) :: appendToBuffer rest symbol r

/-- The in-memory buffer contents for one symbol. -/
def bufferFor (engine : DataIngestionEngine) (symbol : String) :
    List MarketData :=
  (engine.data_buffer.lookup symbol).getD []

/-- Modelled from the spec: `ingest(symbol, source)` (§4.2) — looks up the
named source's connection (`SourceUnavailableError` if absent), fetches and
normalises the raw payload (`DataValidationError` on a bad payload), appends
the record to the symbol's buffer, then writes through to persistence when a
handle is present; a write failure is surfaced as a recoverable warning and
the buffered record is retained. Returns the record, the updated engine, and
the optional warning. -/
def DataIngestionEngine.ingest (engine : DataIngestionEngine)
    (symbol source : String) :
    Except IngestError (MarketData × DataIngestionEngine × Option IngestWarning) :=
  match engine.ccxt_exchanges.lookup source with
  | none => Except.error (IngestError.sourceUnavailable source)
  | some conn =>
    match conn.fetch symbol with
    | Except.error msg => Except.error (IngestError.dataValidation msg)
    | Except.ok raw =>
      let record := normalize raw conn.asset_class source
      let engine' :=
        { engine with data_buffer := appendToBuffer engine.data_buffer symbol record }
      let warning :=
        match engine.firestore_client with
        | none => none
        | some h =>
          match h.write record with
          | Except.ok _ => none
          | Except.error msg => some (IngestWarning.persistenceWrite msg)
      Except.ok (record, engine', warning)

/-! ## Theorems about `validate_config` -/

/-- C2: for every `TradingConfig`, `validate_config` evaluates the five
invariants — `max_position_size ∈ (0, 1]`, `stop_loss_pct > 0`,
`take_profit_pct > stop_loss_pct`, `pattern_recognition_window ≥ 30`,
`rl_episodes ≥ 100` — in that order; it returns `true` (with nothing logged)
iff all five hold, and on the first violated invariant it returns `false`
having logged that specific invariant's message; being a total function it
raises nothing to the caller. -/
theorem claim_C2 (c : TradingConfig) :
    ((validate_config c).1 = true ↔
      ((0 < c.max_position_size ∧ c.max_position_size ≤ 1) ∧ 0 < c.stop_loss_pct ∧
        c.stop_loss_pct < c.take_profit_pct ∧ 30 ≤ c.pattern_recognition_window ∧
        100 ≤ c.rl_episodes)) ∧
    ((validate_config c).1 = true → (validate_config c).2 = none) ∧
    (¬(0 < c.max_position_size ∧ c.max_position_size ≤ 1) →
      validate_config c = (false, some "Invalid position size")) ∧
    ((0 < c.max_position_size ∧ c.max_position_size ≤ 1) → ¬(0 < c.stop_loss_pct) →
      validate_config c = (false, some "Stop loss must be positive")) ∧
    ((0 < c.max_position_size ∧ c.max_position_size ≤ 1) → 0 < c.stop_loss_pct →
      ¬(c.stop_loss_pct < c.take_profit_pct) →
      validate_config c = (false, some "Take profit must exceed stop loss")) ∧
    ((0 < c.max_position_size ∧ c.max_position_size ≤ 1) → 0 < c.stop_loss_pct →
      c.stop_loss_pct < c.take_profit_pct → ¬(30 ≤ c.pattern_recognition_window) →
      validate_config c = (false, some "Window too small for meaningful patterns")) ∧
    ((0 < c.max_position_size ∧ c.max_position_size ≤ 1) → 0 < c.stop_loss_pct →
      c.stop_loss_pct < c.take_profit_pct → 30 ≤ c.pattern_recognition_window →
      ¬(100 ≤ c.rl_episodes) →
      validate_config c = (false, some "Insufficient RL episodes")) := by
  by_cases h1 : 0 < c.max_position_size ∧ c.max_position_size ≤ 1 <;>
  by_cases h2 : 0 < c.stop_loss_pct <;>
  by_cases h3 : c.stop_loss_pct < c.take_profit_pct <;>
  by_cases h4 : 30 ≤ c.pattern_recognition_window <;>
  by_cases h5 : 100 ≤ c.rl_episodes <;>
  simp [validate_config, gt_iff_lt, ge_iff_le, h1, h2, h3, h4, h5]

/-- Closed witness for C2: at the default configuration all five invariants
hold and `validate_config` returns `true`; at a configuration with
`max_position_size = 2` the position-size invariant fails first and is the
one logged. -/
theorem claim_C2_witness :
    (validate_config ({} : TradingConfig)).1 = true ∧
      validate_config { ({} : TradingConfig) with max_position_size := 2 } =
        (false, some "Invalid position size") :=
  ⟨(claim_C2 {}).1.mpr (by norm_num),
   (claim_C2 { ({} : TradingConfig) with max_position_size := 2 }).2.2.1 (by norm_num)⟩

/-- C6: for every `TradingConfig` whose `max_position_size` lies outside
`(0, 1]`, `validate_config` returns `false` and the logged failed invariant
is the position-size invariant. -/
theorem claim_C6 (c : TradingConfig)
    (h : c.max_position_size ≤ 0 ∨ 1 < c.max_position_size) :
    validate_config c = (false, some "Invalid position size") := by
  have hn : ¬(0 < c.max_position_size ∧ c.max_position_size ≤ 1) := by
    rcases h with h | h
    · exact fun hc => absurd hc.1 (not_lt.mpr h)
    · exact fun hc => absurd hc.2 (not_le.mpr h)
  simp [validate_config, gt_iff_lt, hn]

/-- Closed witness for C6 at `max_position_size = 2`. -/
theorem claim_C6_witness :
    validate_config { ({} : TradingConfig) with max_position_size := 2 } =
      (false, some "Invalid position size") :=
  claim_C6 { ({} : TradingConfig) with max_position_size := 2 } (Or.inr (by norm_num))

/-- C7: for every `TradingConfig` in which `take_profit_pct ≤ stop_loss_pct`,
`validate_config` returns `false`. -/
theorem claim_C7 (c : TradingConfig) (h : c.take_profit_pct ≤ c.stop_loss_pct) :
    (validate_config c).1 = false := by
  by_cases h1 : 0 < c.max_position_size ∧ c.max_position_size ≤ 1 <;>
  by_cases h2 : 0 < c.stop_loss_pct <;>
  simp [validate_config, gt_iff_lt, ge_iff_le, h1, h2, not_lt.mpr h]

/-- Closed witness for C7 at `take_profit_pct = 1/100 ≤ stop_loss_pct = 1/50`. -/
theorem claim_C7_witness :
    (validate_config { ({} : TradingConfig) with take_profit_pct := 1/100 }).1 = false :=
  claim_C7 { ({} : TradingConfig) with take_profit_pct := 1/100 } (by norm_num)

/-! ## Helper lemmas about `load_environment_config` -/

theorem exceptBindOkIff {ε α β : Type} (x : Except ε α) (f : α → Except ε β) (b : β) :
    x.bind f = Except.ok b ↔ ∃ a, x = Except.ok a ∧ f a = Except.ok b := by
  cases x <;> simp [Except.bind]

theorem exceptBindOk {ε α β : Type} (a : α) (f : α → Except ε β) :
    (Except.ok a : Except ε α).bind f = f a := rfl

theorem exceptBindErr {ε α β : Type} (e : ε) (f : α → Except ε β) :
    (Except.error e : Except ε α).bind f = Except.error e := rfl

theorem setPaperTrading_of_none (env : Env) (c : TradingConfig)
    (h : getenvTruthy env.PAPER_TRADING = none) : setPaperTrading env c = c := by
  simp [setPaperTrading, h]

theorem setPaperTrading_of_some (env : Env) (c : TradingConfig) (s : String)
    (h : getenvTruthy env.PAPER_TRADING = some s) :
    setPaperTrading env c = { c with paper_trading := pyLower s == "true" } := by
  simp [setPaperTrading, h]

theorem setFloatField_of_none (v : Option String) (upd : TradingConfig → ℚ → TradingConfig)
    (c : TradingConfig) (h : getenvTruthy v = none) :
    setFloatField v upd c = Except.ok c := by
  simp [setFloatField, h]

theorem setFloatField_of_parse (v : Option String) (upd : TradingConfig → ℚ → TradingConfig)
    (c : TradingConfig) (s : String) (q : ℚ)
    (hv : getenvTruthy v = some s) (hp : parseFloat s = some q) :
    setFloatField v upd c = Except.ok (upd c q) := by
  simp [setFloatField, hv, hp]

theorem setFloatField_of_parse_fail (v : Option String) (upd : TradingConfig → ℚ → TradingConfig)
    (c : TradingConfig) (s : String)
    (hv : getenvTruthy v = some s) (hp : parseFloat s = none) :
    setFloatField v upd c = Except.error (PyError.valueError s) := by
  simp [setFloatField, hv, hp]

theorem setFloatField_shape (v : Option String) (upd : TradingConfig → ℚ → TradingConfig)
    (c0 c : TradingConfig) (h : setFloatField v upd c0 = Except.ok c) :
    (getenvTruthy v = none ∧ c = c0) ∨
      ∃ s q, getenvTruthy v = some s ∧ parseFloat s = some q ∧ c = upd c0 q := by
  rcases hv : getenvTruthy v with _ | s
  · rw [setFloatField_of_none _ _ _ hv] at h
    exact Or.inl ⟨rfl, (Except.ok.inj h).symm⟩
  · rcases hq : parseFloat s with _ | q
    · rw [setFloatField_of_parse_fail _ _ _ _ hv hq] at h
      simp at h
    · rw [setFloatField_of_parse _ _ _ _ _ hv hq] at h
      exact Or.inr ⟨s, q, rfl, hq, (Except.ok.inj h).symm⟩

/-- Characterisation of a successful `load_environment_config` run: the result
is the default config with at most the three enumerated fields overridden,
each override value coming from the corresponding (truthy) environment
variable. -/
theorem load_shape (env : Env) (c : TradingConfig)
    (h : load_environment_config env = Except.ok c) :
    ∃ pt mps mrt,
      c = { ({} : TradingConfig) with
            paper_trading := pt
            max_position_size := mps
            model_retrain_threshold := mrt } ∧
      ((getenvTruthy env.PAPER_TRADING = none ∧ pt = true) ∨
        ∃ s, getenvTruthy env.PAPER_TRADING = some s ∧ pt = (pyLower s == "true")) ∧
      ((getenvTruthy env.MAX_POSITION_SIZE = none ∧ mps = 1/10) ∨
        ∃ s, getenvTruthy env.MAX_POSITION_SIZE = some s ∧ parseFloat s = some mps) ∧
      ((getenvTruthy env.MODEL_RETRAIN_THRESHOLD = none ∧ mrt = 17/20) ∨
        ∃ s, getenvTruthy env.MODEL_RETRAIN_THRESHOLD = some s ∧ parseFloat s = some mrt) := by
  have hpt : ∃ pt, setPaperTrading env ({} : TradingConfig) =
      { ({} : TradingConfig) with paper_trading := pt } ∧
      ((getenvTruthy env.PAPER_TRADING = none ∧ pt = true) ∨
        ∃ s, getenvTruthy env.PAPER_TRADING = some s ∧ pt = (pyLower s == "true")) := by
    rcases h0 : getenvTruthy env.PAPER_TRADING with _ | s
    · exact ⟨true, setPaperTrading_of_none env _ h0, Or.inl ⟨rfl, rfl⟩⟩
    · exact ⟨pyLower s == "true", setPaperTrading_of_some env _ s h0, Or.inr ⟨s, rfl, rfl⟩⟩
  obtain ⟨pt, hpte, hptv⟩ := hpt
  unfold load_environment_config at h
  rw [hpte, exceptBindOkIff] at h
  obtain ⟨mid, h1, h2⟩ := h
  rcases setFloatField_shape _ _ _ _ h1 with ⟨hm, rfl⟩ | ⟨s1, q1, hm, hq1, rfl⟩ <;>
    rcases setFloatField_shape _ _ _ _ h2 with ⟨hr, rfl⟩ | ⟨s2, q2, hr, hq2, rfl⟩
  · exact ⟨pt, 1/10, 17/20, rfl, hptv, Or.inl ⟨hm, rfl⟩, Or.inl ⟨hr, rfl⟩⟩
  · exact ⟨pt, 1/10, q2, rfl, hptv, Or.inl ⟨hm, rfl⟩, Or.inr ⟨s2, hr, hq2⟩⟩
  · exact ⟨pt, q1, 17/20, rfl, hptv, Or.inr ⟨s1, hm, hq1⟩, Or.inl ⟨hr, rfl⟩⟩
  · exact ⟨pt, q1, q2, rfl, hptv, Or.inr ⟨s1, hm, hq1⟩, Or.inr ⟨s2, hr, hq2⟩⟩

/-! ## Theorems about `load_environment_config` -/

/-- C9: for every environment, a successful `load_environment_config` only
ever overrides the three enumerated fields (`paper_trading`,
`max_position_size`, `model_retrain_threshold`); every other field of the
returned `TradingConfig` equals its declared default. (In the embedding the
function is pure in the environment — reading environment variables is its
only input and it has no other effect.) -/
theorem claim_C9 (env : Env) (c : TradingConfig)
    (h : load_environment_config env = Except.ok c) :
    c = { ({} : TradingConfig) with
          paper_trading := c.paper_trading
          max_position_size := c.max_position_size
          model_retrain_threshold := c.model_retrain_threshold } := by
  obtain ⟨pt, mps, mrt, rfl, -, -, -⟩ := load_shape env c h
  rfl

/-- Closed witness for C9: the empty environment loads successfully and the
loaded config is the default one overridden (trivially) at the three fields. -/
theorem claim_C9_witness :
    load_environment_config {} = Except.ok ({} : TradingConfig) ∧
      ({} : TradingConfig) = { ({} : TradingConfig) with
        paper_trading := ({} : TradingConfig).paper_trading
        max_position_size := ({} : TradingConfig).max_position_size
        model_retrain_threshold := ({} : TradingConfig).model_retrain_threshold } :=
  ⟨rfl, claim_C9 {} {} rfl⟩

/-- Congruence: `load_environment_config` depends on the environment only through the
truthiness-filtered values of the three recognized variables. -/
theorem load_congr (env env' : Env)
    (h1 : getenvTruthy env.PAPER_TRADING = getenvTruthy env'.PAPER_TRADING)
    (h2 : getenvTruthy env.MAX_POSITION_SIZE = getenvTruthy env'.MAX_POSITION_SIZE)
    (h3 : getenvTruthy env.MODEL_RETRAIN_THRESHOLD =
      getenvTruthy env'.MODEL_RETRAIN_THRESHOLD) :
    load_environment_config env = load_environment_config env' := by
  unfold load_environment_config setPaperTrading setFloatField
  rw [h1, h2, h3]

/-- C10: a recognized environment variable set to the empty string is treated
exactly as if it were unset — loading with the variable empty equals loading
with it absent (so the field keeps its default and no error arises from that
variable); in particular with all three variables empty the default config is
returned. -/
theorem claim_C10 (env : Env) :
    load_environment_config { env with PAPER_TRADING := some "" } =
      load_environment_config { env with PAPER_TRADING := none } ∧
    load_environment_config { env with MAX_POSITION_SIZE := some "" } =
      load_environment_config { env with MAX_POSITION_SIZE := none } ∧
    load_environment_config { env with MODEL_RETRAIN_THRESHOLD := some "" } =
      load_environment_config { env with MODEL_RETRAIN_THRESHOLD := none } ∧
    load_environment_config
      { PAPER_TRADING := some ""
        MAX_POSITION_SIZE := some ""
        MODEL_RETRAIN_THRESHOLD := some "" } = Except.ok ({} : TradingConfig) := by
  exact ⟨load_congr _ _ rfl rfl rfl, load_congr _ _ rfl rfl rfl,
    load_congr _ _ rfl rfl rfl, rfl⟩

/-- The C8 environment: `MAX_POSITION_SIZE` set to the string `"0.5"`, the
other recognized variables unset. -/
def envC8 : Env := { MAX_POSITION_SIZE := some "0.5" }

/-- C8: with `MAX_POSITION_SIZE = "0.5"` and `MODEL_RETRAIN_THRESHOLD` unset,
`load_environment_config` returns the config with `max_position_size = 0.5`
and `model_retrain_threshold` at its default `0.85`, and `validate_config`
accepts that config. -/
theorem claim_C8 :
    load_environment_config envC8 =
      Except.ok { ({} : TradingConfig) with max_position_size := 1/2 } ∧
    ({ ({} : TradingConfig) with max_position_size := 1/2 } : TradingConfig).max_position_size
      = 1/2 ∧
    ({ ({} : TradingConfig) with max_position_size := 1/2 } : TradingConfig).model_retrain_threshold
      = 17/20 ∧
    (validate_config { ({} : TradingConfig) with max_position_size := 1/2 }).1 = true := by
  have hp : parseFloat "0.5" = some (1/2) := by
    rw [parseFloat, show parseFloatParts "0.5" = some (false, 0, 5, 1) from rfl]
    norm_num [partsToRat]
  refine ⟨?_, rfl, rfl, by norm_num [validate_config]⟩
  rw [show load_environment_config envC8 =
      setFloatField (some "0.5") (fun c q => { c with max_position_size := q }) {} from rfl,
    setFloatField_of_parse (some "0.5") _ _ "0.5" (1/2) rfl hp]

/-- The truth of `validate_config` unfolded into the five invariants. -/
theorem validate_true_iff (c : TradingConfig) :
    (validate_config c).1 = true ↔
      ((0 < c.max_position_size ∧ c.max_position_size ≤ 1) ∧ 0 < c.stop_loss_pct ∧
        c.stop_loss_pct < c.take_profit_pct ∧ 30 ≤ c.pattern_recognition_window ∧
        100 ≤ c.rl_episodes) := by
  by_cases h1 : 0 < c.max_position_size ∧ c.max_position_size ≤ 1 <;>
  by_cases h2 : 0 < c.stop_loss_pct <;>
  by_cases h3 : c.stop_loss_pct < c.take_profit_pct <;>
  by_cases h4 : 30 ≤ c.pattern_recognition_window <;>
  by_cases h5 : 100 ≤ c.rl_episodes <;>
  simp [validate_config, gt_iff_lt, ge_iff_le, h1, h2, h3, h4, h5]

/-- The C3 counterexample environment: `MAX_POSITION_SIZE` set to `"2.0"`,
which parses as a float — valid environment input in the claim's sense. -/
def envC3 : Env := { MAX_POSITION_SIZE := some "2.0" }

/-- Counterexample to C3 as stated: the environment `MAX_POSITION_SIZE = "2.0"`
is valid input (it parses as a float), `load_environment_config` succeeds on
it, yet `validate_config` rejects the loaded config. -/
theorem claim_C3_cex :
    load_environment_config envC3 =
      Except.ok { ({} : TradingConfig) with max_position_size := 2 } ∧
    (validate_config { ({} : TradingConfig) with max_position_size := 2 }).1 = false := by
  have hp : parseFloat "2.0" = some 2 := by
    rw [parseFloat, show parseFloatParts "2.0" = some (false, 2, 0, 1) from rfl]
    norm_num [partsToRat]
  constructor
  · rw [show load_environment_config envC3 =
        setFloatField (some "2.0") (fun c q => { c with max_position_size := q }) {} from rfl,
      setFloatField_of_parse (some "2.0") _ _ "2.0" 2 rfl hp]
  · norm_num [validate_config]

/-- C3 (amended): for every environment on which `load_environment_config`
succeeds (so every present recognized variable parses at its field's type),
`validate_config` accepts the loaded config **iff** the loaded
`max_position_size` lies in `(0, 1]` — the other four invariants always hold
on a loaded config since their fields keep their defaults; validation is not
unconditional, as an in-range-typed but out-of-(0,1] `MAX_POSITION_SIZE`
loads successfully and is then rejected. -/
theorem claim_C3 (env : Env) (c : TradingConfig)
    (h : load_environment_config env = Except.ok c) :
    (validate_config c).1 = true ↔
      (0 < c.max_position_size ∧ c.max_position_size ≤ 1) := by
  obtain ⟨pt, mps, mrt, rfl, -, -, -⟩ := load_shape env c h
  rw [validate_true_iff]
  norm_num

/-- Closed witness for C3 (amended), at the empty environment: the default
load validates and its position size is in `(0, 1]`. -/
theorem claim_C3_witness :
    (validate_config ({} : TradingConfig)).1 = true :=
  (claim_C3 {} {} rfl).mpr (by norm_num)

/-- The C1 counterexample environment: `PAPER_TRADING` set to the
non-boolean string `"yes"`. -/
def envC1 : Env := { PAPER_TRADING := some "yes" }

/-- Counterexample to C1 as stated: with `PAPER_TRADING = "yes"` (a string
that is not a boolean), `load_environment_config` does not fail at all — it
silently assigns `false` (the fallback of the `.lower() == "true"`
comparison) to `paper_trading` and returns successfully. -/
theorem claim_C1_cex :
    load_environment_config envC1 =
      Except.ok { ({} : TradingConfig) with paper_trading := false } := rfl

/-- C1 (amended): a present, nonempty `MAX_POSITION_SIZE` or
`MODEL_RETRAIN_THRESHOLD` string that does not parse as a float makes
`load_environment_config` fail with the (uncaught) `ValueError` from
`float()` rather than silently assigning a default; but a present, nonempty
non-boolean `PAPER_TRADING` string never causes a failure — the flag is
silently set to the comparison `s.lower() == "true"`. -/
theorem claim_C1 (env : Env) :
    (((∃ s, getenvTruthy env.MAX_POSITION_SIZE = some s ∧ parseFloat s = none) ∨
      (∃ s, getenvTruthy env.MODEL_RETRAIN_THRESHOLD = some s ∧ parseFloat s = none)) →
      ∃ s, load_environment_config env = Except.error (PyError.valueError s)) ∧
    (∀ s c, getenvTruthy env.PAPER_TRADING = some s →
      load_environment_config env = Except.ok c →
      c.paper_trading = (pyLower s == "true")) := by
  constructor
  · intro hdisj
    rcases hm : getenvTruthy env.MAX_POSITION_SIZE with _ | s1
    · rcases hdisj with ⟨s, hs, -⟩ | ⟨s, hr, hpf⟩
      · rw [hm] at hs; simp at hs
      · refine ⟨s, ?_⟩
        unfold load_environment_config
        rw [setFloatField_of_none _ _ _ hm, exceptBindOk,
          setFloatField_of_parse_fail _ _ _ _ hr hpf]
    · rcases hq : parseFloat s1 with _ | q1
      · refine ⟨s1, ?_⟩
        unfold load_environment_config
        rw [setFloatField_of_parse_fail _ _ _ _ hm hq, exceptBindErr]
      · rcases hdisj with ⟨s, hs, hpf⟩ | ⟨s, hr, hpf⟩
        · rw [hm] at hs
          cases Option.some.inj hs
          exact absurd hq (by rw [hpf]; simp)
        · refine ⟨s, ?_⟩
          unfold load_environment_config
          rw [setFloatField_of_parse _ _ _ _ _ hm hq, exceptBindOk,
            setFloatField_of_parse_fail _ _ _ _ hr hpf]
  · intro s c hs h
    obtain ⟨pt, mps, mrt, rfl, hv, -, -⟩ := load_shape env c h
    rcases hv with ⟨hn, -⟩ | ⟨s', hs', hval⟩
    · rw [hn] at hs; simp at hs
    · rw [hs'] at hs
      cases Option.some.inj hs
      exact hval

/-- Closed witness for C1 (amended): `MAX_POSITION_SIZE = "abc"` makes the
load fail with a `ValueError`, while `PAPER_TRADING = "yes"` loads
successfully with the flag silently set to `false`. -/
theorem claim_C1_witness :
    (∃ s, load_environment_config
        { PAPER_TRADING := none
          MAX_POSITION_SIZE := some "abc"
          MODEL_RETRAIN_THRESHOLD := none } = Except.error (PyError.valueError s)) ∧
    ({ ({} : TradingConfig) with paper_trading := false } : TradingConfig).paper_trading =
      (pyLower "yes" == "true") :=
  ⟨(claim_C1 _).1 (Or.inl ⟨"abc", rfl, rfl⟩),
   (claim_C1 { PAPER_TRADING := some "yes" }).2 "yes"
     { ({} : TradingConfig) with paper_trading := false } rfl rfl⟩

/-! ## Helper lemmas about the ingestion engine -/

theorem initializeExchanges_failed (connect : String → Except String Connection)
    (sources : List String) (bad : String) (hbad : bad ∈ sources)
    (hfail : ∃ e, connect bad = Except.error e) :
    bad ∈ (initializeExchanges connect sources).2 := by
  obtain ⟨e, he⟩ := hfail
  induction sources with
  | nil => cases hbad
  | cons a rest ih =>
    rcases List.mem_cons.mp hbad with rfl | hmem
    · simp [initializeExchanges, he]
    · cases hc : connect a <;> simp [initializeExchanges, hc, ih hmem]

theorem initializeExchanges_ok (connect : String → Except String Connection)
    (sources : List String) (s : String) (conn : Connection) (hmem : s ∈ sources)
    (hok : connect s = Except.ok conn) :
    (s, conn) ∈ (initializeExchanges connect sources).1 := by
  induction sources with
  | nil => cases hmem
  | cons a rest ih =>
    rcases List.mem_cons.mp hmem with rfl | hmem'
    · simp [initializeExchanges, hok]
    · cases hc : connect a <;> simp [initializeExchanges, hc, ih hmem']

theorem appendToBuffer_lookup (buf : List (String × List MarketData)) (symbol : String)
    (r : MarketData) :
    (appendToBuffer buf symbol r).lookup symbol =
      some (((buf.lookup symbol).getD []) ++ [r]) := by
  induction buf with
  | nil => simp [appendToBuffer, List.lookup]
  | cons p rest ih =>
    obtain ⟨k, rs⟩ := p
    by_cases hk : k = symbol
    · subst hk
      simp [appendToBuffer, List.lookup]
    · have hne : (symbol == k) = false := by
        rw [beq_eq_false_iff_ne]
        exact fun h => hk h.symm
      simp [appendToBuffer, hk, List.lookup, hne, ih]

/-- A normalised record carries exactly the payload's fields plus the
connection's asset class and the source name — the well-formedness notion of
the spec's MarketRecord. -/
def wellFormedRecord (rec : MarketData) (raw : RawPayload)
    (asset_class source : String) : Prop :=
  rec.symbol = raw.symbol ∧ rec.timestamp = raw.ts ∧ rec.«open» = raw.o ∧
    rec.high = raw.h ∧ rec.low = raw.l ∧ rec.close = raw.c ∧
    rec.volume = raw.v ∧ rec.asset_class = asset_class ∧ rec.source = source

/-! ## Theorems about the ingestion engine -/

/-- C4 (spec-modelled; `_initialize_exchanges` is truncated in the source):
for every configuration with at least two configured sources of which one
source's connection construction fails, engine construction still succeeds —
it is total and yields an engine in which the failing source is marked
unavailable, every source whose construction succeeds is initialised with its
connection, and the config and persistence handle are stored; the failure is
not propagated out of the constructor. -/
theorem claim_C4 (cfg : TradingConfig) (sources : List String)
    (connect : String → Except String Connection) (p : Option PersistenceHandle)
    (bad good : String) (conn : Connection)
    (hbad : bad ∈ sources) (hfail : ∃ e, connect bad = Except.error e)
    (hgood : good ∈ sources) (hok : connect good = Except.ok conn)
    (_hlen : 2 ≤ sources.length) :
    bad ∈ (mkEngine cfg sources connect p).failed_sources ∧
    (good, conn) ∈ (mkEngine cfg sources connect p).ccxt_exchanges ∧
    (mkEngine cfg sources connect p).config = cfg ∧
    (mkEngine cfg sources connect p).firestore_client = p :=
  ⟨initializeExchanges_failed connect sources bad hbad hfail,
   initializeExchanges_ok connect sources good conn hgood hok, rfl, rfl⟩

/-- The §8 example payload, used by the C4/C5 witnesses. -/
def rawW : RawPayload :=
  { symbol := "BTC/USDT"
    o := 100
    h := 110
    l := 95
    c := 105
    v := 1000
    ts := 0 }

/-- A concrete healthy connection for the C4/C5 witnesses, serving the §8
example payload. -/
def connW : Connection :=
  { asset_class := "crypto"
    fetch := fun s => Except.ok { rawW with symbol := s } }

/-- A two-source connect map for the C4 witness: `binance` is healthy,
`yfinance` is unreachable. -/
def connectW (n : String) : Except String Connection :=
  if n = "binance" then Except.ok connW else Except.error "unreachable"

/-- Closed witness for C4: with sources `[binance, yfinance]` where
`yfinance`'s construction fails, the constructed engine marks `yfinance`
unavailable and still initialises `binance`. -/
theorem claim_C4_witness :
    "yfinance" ∈ (mkEngine {} ["binance", "yfinance"] connectW none).failed_sources ∧
    ("binance", connW) ∈ (mkEngine {} ["binance", "yfinance"] connectW none).ccxt_exchanges ∧
    (mkEngine {} ["binance", "yfinance"] connectW none).config = ({} : TradingConfig) ∧
    (mkEngine {} ["binance", "yfinance"] connectW none).firestore_client = none :=
  claim_C4 {} ["binance", "yfinance"] connectW none "yfinance" "binance" connW
    (by simp) ⟨"unreachable", rfl⟩ (by simp) rfl (by simp)

/-- C5 (spec-modelled; `ingest` is absent from the truncated source): for
every engine whose persistence handle always fails writes, and every symbol
and available source (live connection, fetchable payload), `ingest` still
returns — not raises — a well-formed MarketRecord; the record is appended to
and retained in the in-memory buffer for its symbol, and the persistence
failure surfaces only as a recoverable `persistenceWrite` warning alongside
the successful result. -/
theorem claim_C5 (engine : DataIngestionEngine) (h : PersistenceHandle)
    (symbol source : String) (conn : Connection) (raw : RawPayload)
    (hpersist : engine.firestore_client = some h)
    (hfails : ∀ r, ∃ e, h.write r = Except.error e)
    (hconn : engine.ccxt_exchanges.lookup source = some conn)
    (hfetch : conn.fetch symbol = Except.ok raw) :
    ∃ engine' e,
      engine.ingest symbol source =
        Except.ok (normalize raw conn.asset_class source, engine',
          some (IngestWarning.persistenceWrite e)) ∧
      wellFormedRecord (normalize raw conn.asset_class source) raw conn.asset_class source ∧
      bufferFor engine' symbol =
        bufferFor engine symbol ++ [normalize raw conn.asset_class source] ∧
      normalize raw conn.asset_class source ∈ bufferFor engine' symbol := by
  obtain ⟨e, he⟩ := hfails (normalize raw conn.asset_class source)
  refine ⟨{ engine with
      data_buffer := appendToBuffer engine.data_buffer symbol
        (normalize raw conn.asset_class source) }, e, ?_, ?_, ?_, ?_⟩
  · simp only [DataIngestionEngine.ingest, hconn, hfetch, hpersist, he]
  · exact ⟨rfl, rfl, rfl, rfl, rfl, rfl, rfl, rfl, rfl⟩
  · show ((appendToBuffer engine.data_buffer symbol _).lookup symbol).getD [] = _
    rw [appendToBuffer_lookup]
    rfl
  · show _ ∈ ((appendToBuffer engine.data_buffer symbol _).lookup symbol).getD []
    rw [appendToBuffer_lookup]
    simp

/-- An always-failing persistence handle for the C5 witness. -/
def persistW : PersistenceHandle :=
  { write := fun _ => Except.error "persistence unreachable" }

/-- A concrete engine for the C5 witness: one healthy source, failing
persistence, empty buffer. -/
def engineW : DataIngestionEngine :=
  { config := {}
    firestore_client := some persistW
    ccxt_exchanges := [("binance", connW)]
    failed_sources := []
    data_buffer := [] }

/-- Closed witness for C5: on the concrete engine with always-failing
persistence, ingesting `BTC/USDT` from `binance` returns the normalised
record, retains it in the buffer, and surfaces only a warning. -/
theorem claim_C5_witness :
    ∃ engine' e,
      engineW.ingest "BTC/USDT" "binance" =
        Except.ok (normalize rawW connW.asset_class "binance", engine',
          some (IngestWarning.persistenceWrite e)) ∧
      wellFormedRecord (normalize rawW connW.asset_class "binance") rawW
        connW.asset_class "binance" ∧
      bufferFor engine' "BTC/USDT" =
        bufferFor engineW "BTC/USDT" ++ [normalize rawW connW.asset_class "binance"] ∧
      normalize rawW connW.asset_class "binance" ∈ bufferFor engine' "BTC/USDT" :=
  claim_C5 engineW persistW "BTC/USDT" "binance" connW rawW
    rfl (fun _ => ⟨"persistence unreachable", rfl⟩) rfl rfl

end TradingSystem
